import Mathlib

/-!
Verification of the session-registry and command-gateway core of
`src/services/api/ApiServer.ts` (class `ApiServer`): the handlers
`handleNewTask` and `handleContinueTask` and the in-memory `taskIdMap`
binding caller-supplied custom ids (aliases) to host-assigned task ids.

The embedding is shallow: request bodies are records of optional string
fields (`none` models an absent JSON field), JavaScript truthiness of a
string-or-absent value is the boolean `truthy` (absent, `null` and the
empty string are falsy), the `Map<string,string>` is an association list
with insert-or-overwrite semantics, and the two asynchronous host
commands (`cline.startNewTask`, `cline.addMessageToTask`) are function
parameters returning `Except Thrown _` (a thrown value or a result).
Each handler returns the new registry state, the HTTP response it sends,
and the list of host commands it issued (empty or a singleton).
-/

namespace ApiServer

/-- JavaScript truthiness of an optional string value: absent (`undefined`
or `null`) and the empty string are falsy, every other string is truthy. -/
def truthy : Option String → Bool
  | none => false
  | some s => s != ""

/-- A JavaScript value thrown by a host command invocation: either an
`Error` instance carrying a message, or any other value together with its
`String(...)` coercion. -/
inductive Thrown where
  | errorObj (message : String)
  | otherVal (stringForm : String)
deriving DecidableEq, Repr

/-- The string the handlers put in the 500 response body:
`error instanceof Error ? error.message : String(error)`. -/
def errString : Thrown → String
  | .errorObj message => message
  | .otherVal stringForm => stringForm

/-- The `taskIdMap : Map<string, string>` field, as an association list in
insertion order. -/
abbrev RegMap := List (String × String)

/-- `taskIdMap.has(k)`. -/
def mapHas (m : RegMap) (k : String) : Bool :=
  m.any (fun p => p.1 == k)

/-- `taskIdMap.get(k)` (returning `none` for a missing key). -/
def mapGet (m : RegMap) (k : String) : Option String :=
  (m.find? (fun p => p.1 == k)).map (fun p => p.2)

/-- `taskIdMap.set(k, v)`: overwrite in place if the key is present,
append otherwise (JavaScript `Map` semantics). -/
def mapSet (m : RegMap) (k v : String) : RegMap :=
  if mapHas m k then
    m.map (fun p => if p.1 == k then (k, v) else p)
  else
    m ++ [(k, v)]

/-- Body of `POST /api/tasks/new`: `{description, images?, customId?}`. -/
structure NewTaskReq where
  description : Option String
  images : Option (List String)
  customId : Option String
deriving DecidableEq, Repr

/-- Body of `POST /api/tasks/continue`: `{taskId?, customId?, message, images?}`. -/
structure ContinueReq where
  taskId : Option String
  customId : Option String
  message : Option String
  images : Option (List String)
deriving DecidableEq, Repr

/-- A host command issued through `vscode.commands.executeCommand`. -/
inductive HostCall where
  | startNewTask (task : String) (images : List String)
  | addMessageToTask (taskId : String) (message : String) (images : List String)
deriving DecidableEq, Repr

/-- JSON bodies the two handlers can send. -/
inductive Body where
  | newSuccess (taskId : Option String) (customId : Option String)
  | contSuccess (result : String)
  | errorBody (error : String)
deriving DecidableEq, Repr

/-- An HTTP response: status code and JSON body. -/
structure Resp where
  status : Nat
  body : Body
deriving DecidableEq, Repr

/-- Result of running one handler: the registry state it leaves behind,
the response it sends, and the host commands it issued, in order. -/
structure HandlerOut where
  state : RegMap
  resp : Resp
  calls : List HostCall
deriving DecidableEq, Repr

/-- Behaviour of the host command `cline.startNewTask` at this request:
given the task description and images, it throws or returns
`string | null`. -/
def NewTaskHost := String → List String → Except Thrown (Option String)

/-- Behaviour of the host command `cline.addMessageToTask` at this
request: given the task id, message and images, it throws or returns an
opaque result payload. -/
def ContinueHost := String → String → List String → Except Thrown String

/-- The task-id resolution step of `handleContinueTask`:
`let actualTaskId = taskId; if (customId && !taskId && map.has(customId))
actualTaskId = map.get(customId)!`. -/
def resolveTarget (m : RegMap) (taskId customId : Option String) : Option String :=
  if truthy customId && !(truthy taskId) && mapHas m (customId.getD "") then
    mapGet m (customId.getD "")
  else
    taskId

/-- `handleNewTask`: validate the description, invoke
`cline.startNewTask`, record the alias binding when both `customId` and
the returned task id are truthy, and respond. A thrown host error is
caught and becomes a 500 response. -/
def handleNewTask (host : NewTaskHost) (st : RegMap) (req : NewTaskReq) : HandlerOut :=
  if !(truthy req.description) then
    ⟨st, ⟨400, .errorBody "Task description is required"⟩, []⟩
  else
    match host (req.description.getD "") (req.images.getD []) with
    | .error e =>
        ⟨st, ⟨500, .errorBody (errString e)⟩,
         [.startNewTask (req.description.getD "") (req.images.getD [])]⟩
    | .ok taskId =>
        ⟨(if truthy req.customId && truthy taskId then
            mapSet st (req.customId.getD "") (taskId.getD "")
          else st),
         ⟨200, .newSuccess taskId (if truthy req.customId then req.customId else none)⟩,
         [.startNewTask (req.description.getD "") (req.images.getD [])]⟩

/-- `handleContinueTask`: validate the message, resolve the target task
id (explicit `taskId` first, else a bound `customId`), fail with 400 if
the resolved id is falsy, otherwise invoke `cline.addMessageToTask`. A
thrown host error is caught and becomes a 500 response. -/
def handleContinueTask (host : ContinueHost) (st : RegMap) (req : ContinueReq) : HandlerOut :=
  if !(truthy req.message) then
    ⟨st, ⟨400, .errorBody "Message is required"⟩, []⟩
  else if !(truthy (resolveTarget st req.taskId req.customId)) then
    ⟨st, ⟨400, .errorBody "Valid taskId or customId is required"⟩, []⟩
  else
    match host ((resolveTarget st req.taskId req.customId).getD "")
        (req.message.getD "") (req.images.getD []) with
    | .error e =>
        ⟨st, ⟨500, .errorBody (errString e)⟩,
         [.addMessageToTask ((resolveTarget st req.taskId req.customId).getD "")
           (req.message.getD "") (req.images.getD [])]⟩
    | .ok r =>
        ⟨st, ⟨200, .contSuccess r⟩,
         [.addMessageToTask ((resolveTarget st req.taskId req.customId).getD "")
           (req.message.getD "") (req.images.getD [])]⟩

/-- One external request together with the host behaviour it meets. -/
inductive Op where
  | newTask (host : NewTaskHost) (req : NewTaskReq)
  | contTask (host : ContinueHost) (req : ContinueReq)

/-- Effect of one request on the registry state. -/
def runOp (op : Op) (st : RegMap) : RegMap :=
  match op with
  | .newTask host req => (handleNewTask host st req).state
  | .contTask host req => (handleContinueTask host st req).state

/-- Effect of a sequence of requests on the registry state. -/
def runOps (ops : List Op) (st : RegMap) : RegMap :=
  match ops with
  | [] => st
  | op :: rest => runOps rest (runOp op st)

/-- Host behaviour that returns a fixed `string | null` for any new-task
invocation. -/
def okHost (r : Option String) : NewTaskHost := fun _ _ => Except.ok r

/-- Host behaviour that returns a fixed result payload for any
continue-task invocation. -/
def okContHost (r : String) : ContinueHost := fun _ _ _ => Except.ok r

/-- Host behaviour that throws on any new-task invocation. -/
def failHost (e : Thrown) : NewTaskHost := fun _ _ => Except.error e

/-- Host behaviour that throws on any continue-task invocation. -/
def failContHost (e : Thrown) : ContinueHost := fun _ _ _ => Except.error e

theorem truthy_getD_ne {o : Option String} (h : truthy o = true) : o.getD "" ≠ "" := by
  cases o with
  | none => simp [truthy] at h
  | some s =>
      simp only [truthy, bne_iff_ne, ne_eq, decide_eq_true_eq] at h
      simpa using h

theorem truthy_some_of_ne {s : String} (h : s ≠ "") : truthy (some s) = true := by
  simp [truthy, h]

theorem mapHas_of_mapGet {m : RegMap} {k v : String} (h : mapGet m k = some v) :
    mapHas m k = true := by
  unfold mapGet at h
  unfold mapHas
  cases hf : m.find? (fun p => p.1 == k) with
  | none => rw [hf] at h; simp at h
  | some p =>
      have hmem := List.mem_of_find?_eq_some hf
      have hp := List.find?_some hf
      exact List.any_eq_true.mpr ⟨p, hmem, hp⟩

theorem find?_setInPlace {m : RegMap} {k : String} (v : String) (h : mapHas m k = true) :
    (m.map (fun p => if p.1 == k then (k, v) else p)).find? (fun p => p.1 == k) =
      some (k, v) := by
  induction m with
  | nil => simp [mapHas] at h
  | cons p t ih =>
      cases hp : p.1 == k with
      | true => simp [List.find?, hp]
      | false =>
          have ht : mapHas t k = true := by
            simp only [mapHas, List.any_cons, hp, Bool.false_or] at h
            exact h
          simpa [List.find?, hp] using ih ht

theorem find?_appendNew {m : RegMap} {k : String} (v : String) (h : mapHas m k = false) :
    (m ++ [(k, v)]).find? (fun p => p.1 == k) = some (k, v) := by
  induction m with
  | nil => simp [List.find?]
  | cons p t ih =>
      simp only [mapHas, List.any_cons, Bool.or_eq_false_iff] at h
      obtain ⟨hp, ht⟩ := h
      simp only [List.cons_append, List.find?, hp]
      exact ih ht

theorem mapGet_mapSet_self (m : RegMap) (k v : String) :
    mapGet (mapSet m k v) k = some v := by
  unfold mapSet mapGet
  by_cases h : mapHas m k = true
  · rw [if_pos h, find?_setInPlace v h]
    rfl
  · rw [if_neg h, find?_appendNew v (Bool.eq_false_iff.mpr h)]
    rfl

theorem mapHas_mapSet_self (m : RegMap) (k v : String) :
    mapHas (mapSet m k v) k = true :=
  mapHas_of_mapGet (mapGet_mapSet_self m k v)

theorem mapHas_mapSet_mono {m : RegMap} {a : String} (k v : String)
    (h : mapHas m a = true) : mapHas (mapSet m k v) a = true := by
  unfold mapSet
  by_cases hk : mapHas m k = true
  · rw [if_pos hk]
    obtain ⟨p, hmem, hpa⟩ := List.any_eq_true.mp h
    refine List.any_eq_true.mpr ⟨(fun p => if p.1 == k then (k, v) else p) p, List.mem_map_of_mem _ hmem, ?_⟩
    by_cases hpk : p.1 == k
    · have hk_eq : p.1 = k := eq_of_beq hpk
      simp only [if_pos hpk]
      rw [← hk_eq]
      exact hpa
    · simp only [if_neg hpk]
      exact hpa
  · rw [if_neg hk]
    simp only [mapHas, List.any_append]
    unfold mapHas at h
    rw [h]
    rfl

theorem handleContinueTask_state (host : ContinueHost) (st : RegMap) (req : ContinueReq) :
    (handleContinueTask host st req).state = st := by
  unfold handleContinueTask
  split
  · rfl
  · split
    · rfl
    · split <;> rfl

theorem handleContinueTask_badMessage (host : ContinueHost) (st : RegMap) (req : ContinueReq)
    (hmsg : truthy req.message = false) :
    handleContinueTask host st req = ⟨st, ⟨400, .errorBody "Message is required"⟩, []⟩ := by
  unfold handleContinueTask
  simp [hmsg]

theorem resolveTarget_of_truthy_taskId (st : RegMap) (t customId : Option String)
    (ht : truthy t = true) : resolveTarget st t customId = t := by
  unfold resolveTarget
  simp [ht]

theorem resolveTarget_of_bound (st : RegMap) (c : String) (hc : c ≠ "")
    (t : Option String) (htf : truthy t = false) (hhas : mapHas st c = true) :
    resolveTarget st t (some c) = mapGet st c := by
  unfold resolveTarget
  simp [truthy_some_of_ne hc, htf, hhas]

theorem handleContinue_resolved (host : ContinueHost) (st : RegMap) (req : ContinueReq)
    (hmsg : truthy req.message = true)
    (hres : truthy (resolveTarget st req.taskId req.customId) = true) :
    (handleContinueTask host st req).calls =
      [.addMessageToTask ((resolveTarget st req.taskId req.customId).getD "")
        (req.message.getD "") (req.images.getD [])] := by
  unfold handleContinueTask
  simp only [hmsg, Bool.not_true, Bool.false_eq_true, if_false, hres]
  cases host ((resolveTarget st req.taskId req.customId).getD "")
      (req.message.getD "") (req.images.getD []) <;> simp

theorem handleContinue_unresolved (host : ContinueHost) (st : RegMap) (req : ContinueReq)
    (hmsg : truthy req.message = true)
    (hres : truthy (resolveTarget st req.taskId req.customId) = false) :
    handleContinueTask host st req =
      ⟨st, ⟨400, .errorBody "Valid taskId or customId is required"⟩, []⟩ := by
  unfold handleContinueTask
  simp [hmsg, hres]

theorem handleNewTask_state_cases (host : NewTaskHost) (st : RegMap) (req : NewTaskReq) :
    (handleNewTask host st req).state = st ∨
    ∃ k v, (handleNewTask host st req).state = mapSet st k v := by
  cases hd : truthy req.description with
  | false => left; simp [handleNewTask, hd]
  | true =>
      cases hh : host (req.description.getD "") (req.images.getD []) with
      | error e => left; simp [handleNewTask, hd, hh]
      | ok tid =>
          cases hb : truthy req.customId && truthy tid with
          | true =>
              right
              exact ⟨req.customId.getD "", tid.getD "", by simp [handleNewTask, hd, hh, hb]⟩
          | false => left; simp [handleNewTask, hd, hh, hb]

theorem handleNewTask_bind (host : NewTaskHost) (st : RegMap) (req : NewTaskReq)
    (a tid : String) (hc : req.customId = some a) (ha : a ≠ "")
    (hd : truthy req.description = true)
    (hh : host (req.description.getD "") (req.images.getD []) = .ok (some tid))
    (htid : tid ≠ "") :
    handleNewTask host st req =
      ⟨mapSet st a tid, ⟨200, .newSuccess (some tid) (some a)⟩,
       [.startNewTask (req.description.getD "") (req.images.getD [])]⟩ := by
  unfold handleNewTask
  simp [hd, hh, hc, truthy_some_of_ne ha, truthy_some_of_ne htid]

theorem handleContinue_resolved2 (host : ContinueHost) (st : RegMap)
    (taskId customId message : Option String) (images : Option (List String))
    (hmsg : truthy message = true)
    (hres : truthy (resolveTarget st taskId customId) = true) :
    (handleContinueTask host st ⟨taskId, customId, message, images⟩).calls =
      [.addMessageToTask ((resolveTarget st taskId customId).getD "")
        (message.getD "") (images.getD [])] :=
  handleContinue_resolved host st ⟨taskId, customId, message, images⟩ hmsg hres

/-- C5: a create-session request whose description is absent or empty (falsy) gets
the 400 response with error "Task description is required", issues no host
command, and leaves the registry unchanged. -/
theorem C5_create_missing_description (host : NewTaskHost) (st : RegMap)
    (req : NewTaskReq) (h : truthy req.description = false) :
    handleNewTask host st req =
      ⟨st, ⟨400, .errorBody "Task description is required"⟩, []⟩ := by
  unfold handleNewTask
  simp [h]

theorem C5_witness :
    truthy (NewTaskReq.mk (some "") none (some "c")).description = false ∧
    handleNewTask (okHost (some "T1")) [("a", "b")] ⟨some "", none, some "c"⟩ =
      ⟨[("a", "b")], ⟨400, .errorBody "Task description is required"⟩, []⟩ :=
  ⟨by decide,
   C5_create_missing_description (okHost (some "T1")) [("a", "b")]
     ⟨some "", none, some "c"⟩ (by decide)⟩

/-- C6: a continue-session request with a truthy message, no `taskId`, and whose
`customId` (if supplied) is not bound in the registry gets the 400 response with
error "Valid taskId or customId is required", issues no host command, and leaves
the registry unchanged. -/
theorem C6_continue_unresolvable (host : ContinueHost) (st : RegMap)
    (req : ContinueReq) (hmsg : truthy req.message = true)
    (htid : req.taskId = none)
    (halias : ∀ c, req.customId = some c → mapHas st c = false) :
    handleContinueTask host st req =
      ⟨st, ⟨400, .errorBody "Valid taskId or customId is required"⟩, []⟩ := by
  have hres : truthy (resolveTarget st req.taskId req.customId) = false := by
    unfold resolveTarget
    rw [htid]
    cases hc : req.customId with
    | none => simp [truthy]
    | some c => simp [truthy, halias c hc]
  exact handleContinue_unresolved host st req hmsg hres

theorem C6_witness :
    truthy (ContinueReq.mk none (some "zz") (some "hi") none).message = true ∧
    handleContinueTask (okContHost "R") [] ⟨none, some "zz", some "hi", none⟩ =
      ⟨[], ⟨400, .errorBody "Valid taskId or customId is required"⟩, []⟩ :=
  ⟨by decide,
   C6_continue_unresolvable (okContHost "R") [] ⟨none, some "zz", some "hi", none⟩
     (by decide) rfl (fun c _ => rfl)⟩

/-- C10: a continue-session request never changes the registry: whatever the host
behaviour, registry state and request, the state `handleContinueTask` leaves
behind is exactly the state it started from. -/
theorem C10_continue_frame (host : ContinueHost) (st : RegMap) (req : ContinueReq) :
    (handleContinueTask host st req).state = st :=
  handleContinueTask_state host st req

/-- C7: for either handler, when validation passes and the host invocation
throws, the handler catches the thrown value and responds 500 with a body whose
single error field is the thrown message's string form (the `Error`'s message,
or the `String(...)` form of a non-`Error` value); both handlers are total
functions, so the process never crashes. -/
theorem C7_host_error_propagation :
    (∀ (host : NewTaskHost) (st : RegMap) (req : NewTaskReq) (e : Thrown),
       truthy req.description = true →
       host (req.description.getD "") (req.images.getD []) = .error e →
       (handleNewTask host st req).resp = ⟨500, .errorBody (errString e)⟩) ∧
    (∀ (host : ContinueHost) (st : RegMap) (req : ContinueReq) (e : Thrown),
       truthy req.message = true →
       truthy (resolveTarget st req.taskId req.customId) = true →
       host ((resolveTarget st req.taskId req.customId).getD "")
         (req.message.getD "") (req.images.getD []) = .error e →
       (handleContinueTask host st req).resp = ⟨500, .errorBody (errString e)⟩) := by
  constructor
  · intro host st req e hd hh
    unfold handleNewTask
    simp [hd, hh]
  · intro host st req e hmsg hres hh
    unfold handleContinueTask
    simp [hmsg, hres, hh]

theorem C7_witness :
    (handleNewTask (failHost (.errorObj "boom")) [] ⟨some "d", none, none⟩).resp =
      ⟨500, .errorBody (errString (.errorObj "boom"))⟩ ∧
    (handleContinueTask (failContHost (.otherVal "42")) [("c", "T1")]
        ⟨none, some "c", some "hi", none⟩).resp =
      ⟨500, .errorBody (errString (.otherVal "42"))⟩ :=
  ⟨C7_host_error_propagation.1 (failHost (.errorObj "boom")) [] ⟨some "d", none, none⟩
     (.errorObj "boom") (by decide) rfl,
   C7_host_error_propagation.2 (failContHost (.otherVal "42")) [("c", "T1")]
     ⟨none, some "c", some "hi", none⟩ (.otherVal "42") (by decide) (by decide) rfl⟩

/-- C4: after two successful create-session requests bind the same alias, the
second response is still a 200 success, the registry resolves the alias to the
second identifier only (last-write-wins, no merge, no error), and the
continue-session resolution step yields that second identifier. -/
theorem C4_rebind_last_write_wins (host1 host2 : NewTaskHost) (st : RegMap)
    (req1 req2 : NewTaskReq) (a id1 id2 : String)
    (ha : a ≠ "") (hc1 : req1.customId = some a) (hc2 : req2.customId = some a)
    (hd1 : truthy req1.description = true) (hd2 : truthy req2.description = true)
    (h1 : host1 (req1.description.getD "") (req1.images.getD []) = .ok (some id1))
    (hid1 : id1 ≠ "")
    (h2 : host2 (req2.description.getD "") (req2.images.getD []) = .ok (some id2))
    (hid2 : id2 ≠ "") :
    (handleNewTask host2 (handleNewTask host1 st req1).state req2).resp.status = 200 ∧
    mapGet (handleNewTask host2 (handleNewTask host1 st req1).state req2).state a =
      some id2 ∧
    resolveTarget (handleNewTask host2 (handleNewTask host1 st req1).state req2).state
      none (some a) = some id2 := by
  rw [handleNewTask_bind host1 st req1 a id1 hc1 ha hd1 h1 hid1]
  rw [handleNewTask_bind host2 (mapSet st a id1) req2 a id2 hc2 ha hd2 h2 hid2]
  refine ⟨rfl, mapGet_mapSet_self (mapSet st a id1) a id2, ?_⟩
  rw [resolveTarget_of_bound (mapSet (mapSet st a id1) a id2) a ha none rfl
    (mapHas_mapSet_self (mapSet st a id1) a id2)]
  exact mapGet_mapSet_self (mapSet st a id1) a id2

theorem C4_witness :
    (handleNewTask (okHost (some "T2"))
        (handleNewTask (okHost (some "T1")) [] ⟨some "d1", none, some "a"⟩).state
        ⟨some "d2", none, some "a"⟩).resp.status = 200 ∧
    mapGet (handleNewTask (okHost (some "T2"))
        (handleNewTask (okHost (some "T1")) [] ⟨some "d1", none, some "a"⟩).state
        ⟨some "d2", none, some "a"⟩).state "a" = some "T2" ∧
    resolveTarget (handleNewTask (okHost (some "T2"))
        (handleNewTask (okHost (some "T1")) [] ⟨some "d1", none, some "a"⟩).state
        ⟨some "d2", none, some "a"⟩).state none (some "a") = some "T2" :=
  C4_rebind_last_write_wins (okHost (some "T1")) (okHost (some "T2")) []
    ⟨some "d1", none, some "a"⟩ ⟨some "d2", none, some "a"⟩ "a" "T1" "T2"
    (by decide) rfl rfl (by decide) (by decide) rfl (by decide) rfl (by decide)

/-- C8: no request ever removes a registry binding: every request either leaves
the registry unchanged or performs a single insert-or-overwrite, and across any
sequence of requests an alias that is bound stays bound. -/
theorem C8_registry_no_removal :
    (∀ (op : Op) (st : RegMap),
       runOp op st = st ∨ ∃ k v, runOp op st = mapSet st k v) ∧
    (∀ (ops : List Op) (st : RegMap) (a : String),
       mapHas st a = true → mapHas (runOps ops st) a = true) := by
  have hstep : ∀ (op : Op) (st : RegMap),
      runOp op st = st ∨ ∃ k v, runOp op st = mapSet st k v := by
    intro op st
    cases op with
    | contTask host req => exact Or.inl (handleContinueTask_state host st req)
    | newTask host req => exact handleNewTask_state_cases host st req
  refine ⟨hstep, ?_⟩
  intro ops
  induction ops with
  | nil => intro st a h; exact h
  | cons op rest ih =>
      intro st a h
      have h' : mapHas (runOp op st) a = true := by
        rcases hstep op st with heq | ⟨k, v, heq⟩
        · rw [heq]; exact h
        · rw [heq]; exact mapHas_mapSet_mono k v h
      exact ih (runOp op st) a h'

theorem C8_witness :
    mapHas [("a", "T")] "a" = true ∧
    mapHas (runOps
      [Op.newTask (okHost (some "T2")) ⟨some "d", none, some "b"⟩,
       Op.contTask (okContHost "R") ⟨none, some "a", some "hi", none⟩]
      [("a", "T")]) "a" = true :=
  ⟨by decide,
   C8_registry_no_removal.2
     [Op.newTask (okHost (some "T2")) ⟨some "d", none, some "b"⟩,
      Op.contTask (okContHost "R") ⟨none, some "a", some "hi", none⟩]
     [("a", "T")] "a" (by decide)⟩

/-- C9: a continue-session request supplying the empty string as `taskId`
behaves exactly as if `taskId` were absent (so a bound alias is resolved and
used, and with no resolvable alias the request fails with the validation
error), and under an empty supplied `taskId` every host command the handler
issues carries a non-empty session identifier — the empty string is never
forwarded to the host. -/
theorem C9_empty_taskId_as_absent :
    (∀ (host : ContinueHost) (st : RegMap) (customId message : Option String)
       (images : Option (List String)),
       handleContinueTask host st ⟨some "", customId, message, images⟩ =
         handleContinueTask host st ⟨none, customId, message, images⟩) ∧
    (∀ (host : ContinueHost) (st : RegMap) (req : ContinueReq) (c : HostCall),
       req.taskId = some "" → c ∈ (handleContinueTask host st req).calls →
       ∃ t m imgs, c = .addMessageToTask t m imgs ∧ t ≠ "") := by
  constructor
  · intro host st customId message images
    unfold handleContinueTask resolveTarget
    simp only [show truthy (some "") = false from by decide,
      show truthy (none : Option String) = false from rfl]
    cases hC : truthy customId && !false && mapHas st (customId.getD "") with
    | true => simp [hC]
    | false =>
        simp [hC, show truthy (some "") = false from by decide,
          show truthy (none : Option String) = false from rfl]

  · intro host st req c htid hc
    cases hm : truthy req.message with
    | false =>
        rw [handleContinueTask_badMessage host st req hm] at hc
        simp at hc
    | true =>
        cases hr : truthy (resolveTarget st req.taskId req.customId) with
        | false =>
            rw [handleContinue_unresolved host st req hm hr] at hc
            simp at hc
        | true =>
            rw [handleContinue_resolved host st req hm hr] at hc
            rw [List.mem_singleton] at hc
            exact ⟨(resolveTarget st req.taskId req.customId).getD "",
              req.message.getD "", req.images.getD [], hc, truthy_getD_ne hr⟩

theorem C9_witness :
    handleContinueTask (okContHost "R") [("c", "T1")]
        ⟨some "", some "c", some "hi", none⟩ =
      handleContinueTask (okContHost "R") [("c", "T1")]
        ⟨none, some "c", some "hi", none⟩ ∧
    ∃ t m imgs, HostCall.addMessageToTask "T1" "hi" [] =
      HostCall.addMessageToTask t m imgs ∧ t ≠ "" :=
  ⟨C9_empty_taskId_as_absent.1 (okContHost "R") [("c", "T1")] (some "c") (some "hi") none,
   C9_empty_taskId_as_absent.2 (okContHost "R") [("c", "T1")]
     ⟨some "", some "c", some "hi", none⟩ (.addMessageToTask "T1" "hi" []) rfl (by decide)⟩

/-- C1 (counterexample): with alias "c", a create-session request succeeds
(status 200) and the host returns the non-null identifier `some ""`, yet the
subsequent continue-session request with that alias and no `taskId` fails with
400 and issues no host command — it does not resolve the alias to that
identifier nor invoke the host's continue capability with it. -/
theorem C1_counterexample :
    (handleNewTask (okHost (some "")) [] ⟨some "build", none, some "c"⟩).resp =
      ⟨200, .newSuccess (some "") (some "c")⟩ ∧
    (some "" : Option String) ≠ none ∧
    handleContinueTask (okContHost "R")
        (handleNewTask (okHost (some "")) [] ⟨some "build", none, some "c"⟩).state
        ⟨none, some "c", some "hi", none⟩ =
      ⟨[], ⟨400, .errorBody "Valid taskId or customId is required"⟩, []⟩ := by
  decide

/-- C1 (amended): for every non-empty alias, if a create-session request with
that alias passes validation and the host returns a non-empty identifier, then
a subsequent continue-session request with a non-empty message, no `taskId`,
and that alias resolves the alias to exactly that identifier and issues the
continue host command with it. -/
theorem C1_amended_roundtrip (hostN : NewTaskHost) (hostC : ContinueHost)
    (st : RegMap) (req : NewTaskReq) (a tid msg : String)
    (imgs : Option (List String))
    (ha : a ≠ "") (hc : req.customId = some a)
    (hd : truthy req.description = true)
    (hh : hostN (req.description.getD "") (req.images.getD []) = .ok (some tid))
    (htid : tid ≠ "") (hmsg : msg ≠ "") :
    resolveTarget (handleNewTask hostN st req).state none (some a) = some tid ∧
    (handleContinueTask hostC (handleNewTask hostN st req).state
        ⟨none, some a, some msg, imgs⟩).calls =
      [.addMessageToTask tid msg (imgs.getD [])] := by
  rw [handleNewTask_bind hostN st req a tid hc ha hd hh htid]
  have hres : resolveTarget (mapSet st a tid) none (some a) = some tid := by
    rw [resolveTarget_of_bound (mapSet st a tid) a ha none rfl
      (mapHas_mapSet_self st a tid)]
    exact mapGet_mapSet_self st a tid
  refine ⟨hres, ?_⟩
  rw [handleContinue_resolved2 hostC (mapSet st a tid) none (some a) (some msg) imgs
    (truthy_some_of_ne hmsg) (by rw [hres]; exact truthy_some_of_ne htid)]
  rw [hres]
  rfl

theorem C1_witness :
    resolveTarget (handleNewTask (okHost (some "T1")) []
        ⟨some "build", none, some "c"⟩).state none (some "c") = some "T1" ∧
    (handleContinueTask (okContHost "R")
        (handleNewTask (okHost (some "T1")) [] ⟨some "build", none, some "c"⟩).state
        ⟨none, some "c", some "hi", none⟩).calls =
      [.addMessageToTask "T1" "hi" []] :=
  C1_amended_roundtrip (okHost (some "T1")) (okContHost "R") []
    ⟨some "build", none, some "c"⟩ "c" "T1" "hi" none
    (by decide) rfl (by decide) rfl (by decide) (by decide)

/-- C2 (counterexample): a continue-session request that explicitly supplies
the empty string as `taskId` together with an alias bound to "T1" invokes the
host with the alias's bound identifier "T1", not with the supplied `taskId`
used as-is — the alias is not ignored when the supplied identifier is the
empty string. -/
theorem C2_counterexample :
    (handleContinueTask (okContHost "R") [("c", "T1")]
        ⟨some "", some "c", some "hi", none⟩).calls =
      [.addMessageToTask "T1" "hi" []] ∧
    (handleContinueTask (okContHost "R") [("c", "T1")]
        ⟨some "", some "c", some "hi", none⟩).calls ≠
      [.addMessageToTask "" "hi" []] := by
  decide

/-- C2 (amended): for a continue-session request with a truthy message, the
target session reference is determined as follows: a supplied non-empty
`taskId` is used as-is (the alias is ignored entirely, bound or not); otherwise,
with a falsy `taskId`, a non-empty alias bound to a non-empty identifier
resolves to that identifier, which is used; and whenever the resolved reference
is falsy the request fails with 400 and the exact error
"Valid taskId or customId is required" before any host invocation. -/
theorem C2_amended_resolution (host : ContinueHost) (st : RegMap)
    (req : ContinueReq) (hmsg : truthy req.message = true) :
    (∀ t, req.taskId = some t → t ≠ "" →
       (handleContinueTask host st req).calls =
         [.addMessageToTask t (req.message.getD "") (req.images.getD [])]) ∧
    (truthy req.taskId = false →
       ∀ c v, req.customId = some c → c ≠ "" → mapGet st c = some v → v ≠ "" →
       (handleContinueTask host st req).calls =
         [.addMessageToTask v (req.message.getD "") (req.images.getD [])]) ∧
    (truthy (resolveTarget st req.taskId req.customId) = false →
       handleContinueTask host st req =
         ⟨st, ⟨400, .errorBody "Valid taskId or customId is required"⟩, []⟩) := by
  refine ⟨?_, ?_, ?_⟩
  · intro t htt htne
    have hres : resolveTarget st req.taskId req.customId = some t := by
      rw [resolveTarget_of_truthy_taskId st req.taskId req.customId
        (by rw [htt]; exact truthy_some_of_ne htne)]
      exact htt
    rw [handleContinue_resolved host st req hmsg
      (by rw [hres]; exact truthy_some_of_ne htne), hres]
    rfl
  · intro htf c v hcc hcne hget hvne
    have hres : resolveTarget st req.taskId req.customId = some v := by
      rw [hcc, resolveTarget_of_bound st c hcne req.taskId htf (mapHas_of_mapGet hget)]
      exact hget
    rw [handleContinue_resolved host st req hmsg
      (by rw [hres]; exact truthy_some_of_ne hvne), hres]
    rfl
  · intro hres
    exact handleContinue_unresolved host st req hmsg hres

theorem C2_witness :
    (handleContinueTask (okContHost "R") [("c", "T1")]
        ⟨some "T9", some "c", some "hi", none⟩).calls =
      [.addMessageToTask "T9" "hi" []] ∧
    (handleContinueTask (okContHost "R") [("c", "T1")]
        ⟨none, some "c", some "hi", none⟩).calls =
      [.addMessageToTask "T1" "hi" []] ∧
    handleContinueTask (okContHost "R") []
        ⟨none, none, some "hi", none⟩ =
      ⟨[], ⟨400, .errorBody "Valid taskId or customId is required"⟩, []⟩ :=
  ⟨(C2_amended_resolution (okContHost "R") [("c", "T1")]
      ⟨some "T9", some "c", some "hi", none⟩ (by decide)).1 "T9" rfl (by decide),
   (C2_amended_resolution (okContHost "R") [("c", "T1")]
      ⟨none, some "c", some "hi", none⟩ (by decide)).2.1 rfl "c" "T1" rfl
     (by decide) rfl (by decide),
   (C2_amended_resolution (okContHost "R") []
      ⟨none, none, some "hi", none⟩ (by decide)).2.2 rfl⟩

/-- C3 (counterexample): with alias "c" supplied and the host returning the
non-null identifier `some ""`, the create-session request responds 200 with
that identifier, yet no registry binding is recorded — refuting that a binding
is recorded exactly when an alias was supplied and the host returned a
non-null identifier. -/
theorem C3_counterexample :
    (handleNewTask (okHost (some "")) [] ⟨some "d", none, some "c"⟩).resp =
      ⟨200, .newSuccess (some "") (some "c")⟩ ∧
    (some "" : Option String) ≠ none ∧
    (handleNewTask (okHost (some "")) [] ⟨some "d", none, some "c"⟩).state = [] ∧
    mapHas (handleNewTask (okHost (some "")) [] ⟨some "d", none, some "c"⟩).state
      "c" = false := by
  decide

/-- C3 (amended): in a validated create-session request whose host invocation
returns `tid`, a registry binding is recorded exactly when the supplied alias
is non-empty and the returned identifier is non-empty: with both non-empty the
new state is the old state with that binding upserted; with a falsy alias or a
falsy identifier the registry is unchanged; and a null identifier still yields
a 200 success response carrying `sessionId = null` (and the alias when it was
truthy). -/
theorem C3_amended_binding_condition (host : NewTaskHost) (st : RegMap)
    (req : NewTaskReq) (tid : Option String)
    (hd : truthy req.description = true)
    (hh : host (req.description.getD "") (req.images.getD []) = .ok tid) :
    (∀ a t, req.customId = some a → a ≠ "" → tid = some t → t ≠ "" →
       (handleNewTask host st req).state = mapSet st a t) ∧
    (truthy req.customId = false ∨ truthy tid = false →
       (handleNewTask host st req).state = st) ∧
    (tid = none →
       (handleNewTask host st req).resp =
         ⟨200, .newSuccess none
           (if truthy req.customId then req.customId else none)⟩) := by
  refine ⟨?_, ?_, ?_⟩
  · intro a t hca hane htt htne
    rw [handleNewTask_bind host st req a t hca hane hd (htt ▸ hh) htne]
  · intro hor
    unfold handleNewTask
    rcases hor with h | h <;> simp [hd, hh, h]
  · intro htn
    unfold handleNewTask
    rw [htn] at hh
    simp [hd, hh, show truthy (none : Option String) = false from rfl]

theorem C3_witness :
    (handleNewTask (okHost (some "T1")) [] ⟨some "d", none, some "c"⟩).state =
      mapSet [] "c" "T1" ∧
    (handleNewTask (okHost none) [("x", "y")] ⟨some "d", none, some "c"⟩).state =
      [("x", "y")] ∧
    (handleNewTask (okHost none) [] ⟨some "d", none, some "c"⟩).resp =
      ⟨200, .newSuccess none
        (if truthy (NewTaskReq.mk (some "d") none (some "c")).customId
         then (NewTaskReq.mk (some "d") none (some "c")).customId else none)⟩ :=
  ⟨(C3_amended_binding_condition (okHost (some "T1")) [] ⟨some "d", none, some "c"⟩
      (some "T1") (by decide) rfl).1 "c" "T1" rfl (by decide) rfl (by decide),
   (C3_amended_binding_condition (okHost none) [("x", "y")]
      ⟨some "d", none, some "c"⟩ none (by decide) rfl).2.1 (Or.inr rfl),
   (C3_amended_binding_condition (okHost none) [] ⟨some "d", none, some "c"⟩
      none (by decide) rfl).2.2 rfl⟩

end ApiServer
